import Mathlib

/-!
# Verification of `ecs-local` (task-to-container translation pipeline)

A shallow embedding of `src/main.go` of the Fullscreen/ecs-local tool.
The tool resolves a remote ECS task definition into a local `docker run`
invocation.  We embed the pure core of `run` (main.go lines 179-345):
region/profile selection, registry-token parsing, command selection, the
role-assumption step, the invocation argument builder, and the process
runner, together with the Go standard-library string and base64 operations
the code relies on.  External calls (AWS API responses, the image pull,
the child process outcome) are inputs to the embedded pipeline.
-/

namespace EcsLocal

/-! ## Go standard library operations used by main.go -/

/-- Splitting a character list at every occurrence of a separator
character; the result always has at least one (possibly empty) group. -/
def splitCharList (sep : Char) : List Char → List (List Char)
  | [] => [[]]
  | c :: rest =>
    let r := splitCharList sep rest
    if c = sep then [] :: r
    else
      match r with
      | [] => [[c]]
      | g :: gs => (c :: g) :: gs

/-- Joining character-list groups with a separator character
(the inverse of `splitCharList`). -/
def joinCharGroups (sep : Char) : List (List Char) → List Char
  | [] => []
  | [g] => g
  | g :: gs => g ++ sep :: joinCharGroups sep gs

/-- Go `strings.Split(s, sep)` as used by main.go, where every separator is
a single character (`" "`, `":"`, `"="`): splits on every occurrence.
Note Go's `strings.Split("", sep)` returns `[""]`, a slice of length one. -/
def goSplit (s : String) (sep : Char) : List String :=
  (splitCharList sep s.data).map String.mk

/-- Go `strings.SplitN(s, sep, 2)` for a single-character separator: splits
on the first occurrence only; a string not containing the separator yields
a one-element slice. -/
def goSplitN2 (s : String) (sep : Char) : List String :=
  match splitCharList sep s.data with
  | [] => [s]
  | [x] => [String.mk x]
  | x :: rest => [String.mk x, String.mk (joinCharGroups sep rest)]

/-- Value of a single character of the standard base64 alphabet
(`A-Za-z0-9+/`), `none` for any other character. -/
def base64Index (c : Char) : Option Nat :=
  if 'A' ≤ c ∧ c ≤ 'Z' then some (c.toNat - 65)
  else if 'a' ≤ c ∧ c ≤ 'z' then some (c.toNat - 97 + 26)
  else if '0' ≤ c ∧ c ≤ '9' then some (c.toNat - 48 + 52)
  else if c = '+' then some 62
  else if c = '/' then some 63
  else none

/-- Go `base64.StdEncoding.Decode` over the character groups of the input:
four characters yield three bytes, `=` padding is accepted only in the
final group, and any character outside the alphabet (or a length not a
multiple of four) is an error, modelled as `none`. -/
def base64DecodeGroups : List Char → Option (List Nat)
  | [] => some []
  | c1 :: c2 :: c3 :: c4 :: rest => do
    let a ← base64Index c1
    let b ← base64Index c2
    if c3 = '=' then
      if c4 = '=' ∧ rest = [] then
        some [a * 4 + b / 16]
      else
        none
    else do
      let c ← base64Index c3
      if c4 = '=' then
        if rest = [] then
          some [a * 4 + b / 16, (b % 16) * 16 + c / 4]
        else
          none
      else do
        let d ← base64Index c4
        let tail ← base64DecodeGroups rest
        some ([a * 4 + b / 16, (b % 16) * 16 + c / 4, (c % 4) * 64 + d] ++ tail)
  | _ => none

/-- Go `base64.StdEncoding.DecodeString` followed by Go's `string(data)`
conversion; the registry tokens at issue are ASCII, where the byte-to-rune
conversion is the identity. -/
def base64DecodeString (s : String) : Option String :=
  (base64DecodeGroups s.data).map (fun bs => String.mk (bs.map Char.ofNat))

/-! ## Exit codes (main.go lines 25-31) -/

def exitCodeOk : Int := 0
def exitCodeError : Int := 1
def exitCodeDockerError : Int := 2

/-! ## Data model -/

/-- One entry of `ContainerDefinition.Environment` (an ECS key-value pair). -/
structure EnvPair where
  name : String
  value : String
  deriving DecidableEq, Repr

/-- The fields of an ECS container definition the pipeline reads
(image, default command, environment). -/
structure ContainerDefinition where
  image : String
  command : List String
  environment : List EnvPair
  deriving DecidableEq, Repr

/-- The fields of a `DescribeTaskDefinition` response the pipeline reads. -/
structure TaskDefinition where
  taskDefinitionArn : String
  containerDefinitions : List ContainerDefinition
  taskRoleArn : Option String
  deriving DecidableEq, Repr

/-- Temporary credentials returned by `sts.AssumeRole`. -/
structure Credentials where
  accessKeyId : String
  secretAccessKey : String
  sessionToken : String
  deriving DecidableEq, Repr

/-- One entry of the `GetAuthorizationToken` response's `AuthorizationData`. -/
structure AuthorizationData where
  authorizationToken : String
  proxyEndpoint : String
  deriving DecidableEq, Repr

/-! ## Region and profile selection (main.go lines 181-196)

`viper.GetString` resolves a key from the explicit flag when set, else the
config file when present, else the built-in default; afterwards the code
unconditionally overwrites the value with the `AWS_REGION` / `AWS_PROFILE`
environment variable whenever that variable is present. -/

/-- Viper's string lookup: explicit flag value, else config-file value,
else built-in default. -/
def viperGetString (flagValue configValue : Option String) (dflt : String) : String :=
  match flagValue with
  | some f => f
  | none =>
    match configValue with
    | some c => c
    | none => dflt

/-- main.go lines 182-186: the region actually used for the run. -/
def selectRegion (flagRegion configRegion envRegion : Option String) : String :=
  let awsRegion := viperGetString flagRegion configRegion "us-east-1"
  match envRegion with
  | some e => e
  | none => awsRegion

/-- main.go lines 189-193: the profile actually used for the run. -/
def selectProfile (flagProfile configProfile envProfile : Option String) : String :=
  let awsProfile := viperGetString flagProfile configProfile "default"
  match envProfile with
  | some e => e
  | none => awsProfile

/-! ## Command selection (main.go lines 281-286)

`command := strings.Split(viper.GetString("action"), " ")`, and only when
that slice is empty does the code fall back to the container definition's
command.  (Viper's built-in default for `action` is `"bundle exec rails c"`.) -/

/-- The viper default for the `action` flag (main.go line 70). -/
def viperActionDefault : String := "bundle exec rails c"

/-- main.go lines 281-286: the final command token list. -/
def selectCommand (action : String) (containerCommand : List String) : List String :=
  let command := goSplit action ' '
  if command.length = 0 then containerCommand else command

/-! ## Registry token parsing (main.go lines 244-260)

The token is base64-decoded; a decode error exits with
`exitCodeDockerError` after printing the error.  The decoded data is then
split with `strings.Split(string(data), ":")` — on every colon — and when
the result does not have exactly two parts the code executes
`fmt.Fprintln(os.Stderr, err.Error())` where `err` is the (nil) decode
error, a nil-interface method call, i.e. a Go runtime panic. -/

/-- Outcome of the registry-token parsing stage. -/
inductive AuthParseResult where
  | authOk (username password : String) : AuthParseResult
  | decodeFailed : AuthParseResult
  | splitCrashed : AuthParseResult
  deriving DecidableEq, Repr

/-- main.go lines 244-260. -/
def parseRegistryToken (token : String) : AuthParseResult :=
  match base64DecodeString token with
  | none => .decodeFailed
  | some data =>
    let userpass := goSplit data ':'
    if h : userpass.length = 2 then
      .authOk (userpass.get ⟨0, by omega⟩) (userpass.get ⟨1, by omega⟩)
    else
      .splitCrashed

/-! ## Role assumption step (main.go lines 294-313)

The code calls `sts.AssumeRole` only when the task has a `TaskRoleArn`.
On failure it emits two `log.Debugf` messages and injects nothing; on
success it emits one `log.Debugf` message and appends the three
credential environment flags. -/

/-- Logrus levels used by main.go (`log.SetLevel` picks `ErrorLevel`, or
`DebugLevel` with `-v`; the role step logs only via `log.Debugf`). -/
inductive LogLevel where
  | debug
  | info
  | errorLevel
  deriving DecidableEq, Repr

/-- One emitted log line. -/
structure LogEntry where
  level : LogLevel
  msg : String
  deriving DecidableEq, Repr

/-- main.go lines 294-313: the extra docker arguments contributed by the
role-assumption step, together with the log lines it emits.
`assumeRoleResult` is the outcome of the external `sts.AssumeRole` call. -/
def assumeRoleStep (taskRoleArn : Option String)
    (assumeRoleResult : Except String Credentials) :
    List String × List LogEntry :=
  match taskRoleArn with
  | none => ([], [])
  | some arn =>
    match assumeRoleResult with
    | .error e =>
      ([], [⟨.debug, "Unable to assume role " ++ arn⟩, ⟨.debug, e⟩])
    | .ok c =>
      (["-e", "AWS_ACCESS_KEY_ID=" ++ c.accessKeyId,
        "-e", "AWS_SECRET_ACCESS_KEY=" ++ c.secretAccessKey,
        "-e", "AWS_SESSION_TOKEN=" ++ c.sessionToken],
       [⟨.debug, "Successfully assumed container role " ++ arn⟩])

/-! ## Mount and environment flag loops (main.go lines 315-333)

Each loop calls `strings.SplitN(spec, sep, 2)` and then indexes
`parts[0]` and `parts[1]` without a length check: a spec not containing
the separator makes `parts[1]` an out-of-range access, a Go runtime
panic, modelled as `none`. -/

/-- main.go lines 317-323: the mounts loop, threading the accumulated
docker argument list exactly as the Go loop appends to it. -/
def mountFold (mounts : List String) (acc : List String) : Option (List String) :=
  match mounts with
  | [] => some acc
  | mount :: rest =>
    let parts := goSplitN2 mount ':'
    match parts[0]?, parts[1]? with
    | some p0, some p1 => mountFold rest (acc ++ ["-v", p0 ++ ":" ++ p1])
    | _, _ => none

/-- main.go lines 327-333: the user-environment loop, likewise. -/
def envFold (envs : List String) (acc : List String) : Option (List String) :=
  match envs with
  | [] => some acc
  | env :: rest =>
    let parts := goSplitN2 env '='
    match parts[0]?, parts[1]? with
    | some p0, some p1 => envFold rest (acc ++ ["-e", p0 ++ "=" ++ p1])
    | _, _ => none

/-! ## Invocation builder (main.go lines 278-338) -/

/-- main.go lines 278-338: the docker argument list handed to
`exec.Command("docker", ...)`, built in the code's order: base flags,
container-definition environment flags, role-step flags, mount flags,
user-environment flags, the image, then the command tokens.  `none`
models the out-of-range panic of a malformed mount or env spec. -/
def buildInvocation (cd : ContainerDefinition) (roleArgs : List String)
    (mounts envs : List String) (command : List String) :
    Option (List String) :=
  let dockerArgs := ["run", "-it", "--rm"]
  let dockerArgs :=
    cd.environment.foldl (fun a e => a ++ ["-e", e.name ++ "=" ++ e.value]) dockerArgs
  let dockerArgs := dockerArgs ++ roleArgs
  match mountFold mounts dockerArgs with
  | none => none
  | some withMounts =>
    match envFold envs withMounts with
    | none => none
    | some withEnvs => some (withEnvs ++ [cd.image] ++ command)

/-! ## The pipeline from the task-definition response to the child process
(main.go lines 228-345) -/

/-- External inputs consumed by the pipeline after a successful
`DescribeTaskDefinition` call: the response itself, the
`GetAuthorizationToken` response data, the `sts.AssumeRole` outcome, the
`PullImage` outcome, the relevant flag values, and the child docker
process's outcome (start error, or exit status once started). -/
structure PipelineInput where
  taskDefinition : TaskDefinition
  authorizationData : List AuthorizationData
  assumeRoleResult : Except String Credentials
  pullError : Option String
  action : String
  mounts : List String
  envs : List String
  childStartError : Option String
  childExitStatus : Int
  deriving Repr

/-- The observable end of one run of the pipeline. -/
inductive RunResult where
  /-- A Go runtime panic (out-of-range index or nil-interface call). -/
  | crashed
  /-- An `os.Exit(code)` before the child process stage. -/
  | exitedEarly (code : Int)
  /-- The process-runner stage was reached: `exec.Command("docker", argv...)`
  was started and waited for, and the tool then finished with exit status
  `toolExit`. -/
  | launched (argv : List String) (toolExit : Int)
  deriving DecidableEq, Repr

/-- main.go lines 228-345, in the code's evaluation order:
index the first container definition (line 229) and the first
authorization-data entry (line 241) — each a panic when absent —, decode
and split the registry token (lines 244-260), pull the image
(lines 272-276, exiting with `exitCodeDockerError` on failure), build the
docker arguments and command, and run the child.  Lines 343-344 discard
the results of `Start()` and `Wait()`, so the `run` function always
returns normally and the tool exits with `exitCodeOk` regardless of
`childStartError` and `childExitStatus`. -/
def runPipeline (input : PipelineInput) : RunResult :=
  match input.taskDefinition.containerDefinitions[0]? with
  | none => .crashed
  | some cd0 =>
    match input.authorizationData[0]? with
    | none => .crashed
    | some authData =>
      match parseRegistryToken authData.authorizationToken with
      | .decodeFailed => .exitedEarly exitCodeDockerError
      | .splitCrashed => .crashed
      | .authOk _ _ =>
        match input.pullError with
        | some _ => .exitedEarly exitCodeDockerError
        | none =>
          let command := selectCommand input.action cd0.command
          let roleArgs := (assumeRoleStep input.taskDefinition.taskRoleArn
            input.assumeRoleResult).fst
          match buildInvocation cd0 roleArgs input.mounts input.envs command with
          | none => .crashed
          | some argv => .launched argv exitCodeOk

/-! ## Credential cache provider

Modelled from the spec: the `CredentialCacheProvider` implementation
(cache-file read, expiry check with safety margin, delegation to the
wrapped chain, cache write) is not among the provided source files — only
its use site, main.go lines 208-211, is.  Modelled from spec sections 4.1
and 8: a cached record is returned, with no chain call, exactly when it is
present, deserializable, and `expiry > now + margin`; a missing, corrupt,
or expired record is a cache miss that delegates to the chain exactly once
and overwrites the cache with the fresh result. -/

/-- Modelled from the spec: a Cached Credential Record (spec section 3). -/
structure CachedRecord where
  accessKey : String
  secretKey : String
  sessionToken : String
  expiry : Nat
  providerName : String
  deriving DecidableEq, Repr

/-- Modelled from the spec: the result of reading the durable cache for a
key — missing, present but corrupt (undeserializable), or a record. -/
inductive CacheReadResult where
  | missing
  | corrupt
  | found (record : CachedRecord)
  deriving DecidableEq, Repr

/-- Modelled from the spec: the expiry safety margin, e.g. five minutes
(spec section 4.1 step 2), in seconds. -/
def safetyMargin : Nat := 300

/-- Modelled from the spec: one `resolve` call of the Credential Cache
Provider for a given cache key.  Returns the credentials handed to the
caller, the number of invocations of the wrapped provider chain, and the
record written back to the cache (`none` when the cache is untouched).
`chainResult` is the record the wrapped chain would produce when invoked. -/
def resolveCredentials (cacheRead : CacheReadResult) (now : Nat)
    (chainResult : CachedRecord) :
    CachedRecord × Nat × Option CachedRecord :=
  match cacheRead with
  | .found record =>
    if now + safetyMargin < record.expiry then
      (record, 0, none)
    else
      (chainResult, 1, some chainResult)
  | _ => (chainResult, 1, some chainResult)

/-! ## Derived descriptions of the flag segments

These definitions give the per-segment shape of the argument list that the
loop-based builder above produces; the theorems below prove the two agree. -/

/-- The docker flags contributed by one well-formed mount spec. -/
def mountFlag (m : String) : List String :=
  match goSplitN2 m ':' with
  | [p0, p1] => ["-v", p0 ++ ":" ++ p1]
  | _ => []

/-- The docker flags contributed by a list of well-formed mount specs. -/
def mountFlagList (mounts : List String) : List String :=
  (mounts.map mountFlag).flatten

/-- The docker flags contributed by one well-formed user env override. -/
def envFlag (env : String) : List String :=
  match goSplitN2 env '=' with
  | [p0, p1] => ["-e", p0 ++ "=" ++ p1]
  | _ => []

/-- The docker flags contributed by a list of well-formed env overrides. -/
def envFlagList (envs : List String) : List String :=
  (envs.map envFlag).flatten

/-- The docker flags contributed by the container definition's
environment entries. -/
def ceFlags (environment : List EnvPair) : List String :=
  (environment.map (fun e => ["-e", e.name ++ "=" ++ e.value])).flatten

/-- The docker flags contributed by optional scoped credentials: empty
when absent, the three credential environment injections when present
(main.go lines 307-311). -/
def credFlags : Option Credentials → List String
  | none => []
  | some c =>
    ["-e", "AWS_ACCESS_KEY_ID=" ++ c.accessKeyId,
     "-e", "AWS_SECRET_ACCESS_KEY=" ++ c.secretAccessKey,
     "-e", "AWS_SESSION_TOKEN=" ++ c.sessionToken]

/-! ## Detecting credential environment injections -/

/-- Whether one character list is an initial segment of another. -/
def listStartsWith : List Char → List Char → Bool
  | [], _ => true
  | _ :: _, [] => false
  | a :: as, b :: bs => a = b && listStartsWith as bs

/-- Whether `pre` is an initial segment of `s`. -/
def strStartsWith (pre s : String) : Bool :=
  listStartsWith pre.data s.data

/-- The three AWS credential environment variable names injected by the
role-assumption step. -/
def credentialEnvNames : List String :=
  ["AWS_ACCESS_KEY_ID", "AWS_SECRET_ACCESS_KEY", "AWS_SESSION_TOKEN"]

/-- Whether an argument-list entry is a credential environment injection,
i.e. starts with one of the credential variable names followed by `=`. -/
def mentionsCredentialEnv (s : String) : Bool :=
  credentialEnvNames.any (fun n => strStartsWith (n ++ "=") s)

/-! ## Concrete pipeline inputs used to evaluate the code -/

/-- The `base64` encoding of `user:pass`: a token decoding to a single-colon pair. -/
def tokenUserPass : String := "dXNlcjpwYXNz"

/-- The `base64` encoding of `user:pa:ss`: a token whose password portion contains a
colon. -/
def tokenColonPassword : String := "dXNlcjpwYTpzcw=="

/-- A one-container task definition with no task role. -/
def sampleTask : TaskDefinition :=
  ⟨"arn:aws:ecs:us-east-1:1:task-definition/app:1",
   [⟨"repo/app:1", ["bin/app"], [⟨"A", "1"⟩]⟩], none⟩

/-- A run whose child docker process fails to start (the binary is not
found) and whose hypothetical exit status is 127. -/
def inputChildFailure : PipelineInput :=
  { taskDefinition := sampleTask
    authorizationData := [⟨tokenUserPass, "https://registry.example"⟩]
    assumeRoleResult := Except.error "unused"
    pullError := none
    action := "sh"
    mounts := []
    envs := []
    childStartError := some "exec: docker: executable file not found in PATH"
    childExitStatus := 127 }

/-- A run with a mount spec lacking a colon. -/
def inputBadMount : PipelineInput :=
  { taskDefinition := sampleTask
    authorizationData := [⟨tokenUserPass, "https://registry.example"⟩]
    assumeRoleResult := Except.error "unused"
    pullError := none
    action := "sh"
    mounts := ["nocolon"]
    envs := []
    childStartError := none
    childExitStatus := 0 }

/-- A run whose role assumption is denied. -/
def inputRoleDenied : PipelineInput :=
  { taskDefinition :=
      ⟨"arn:aws:ecs:us-east-1:1:task-definition/app:1",
       [⟨"repo/app:1", ["bin/app"], [⟨"A", "1"⟩]⟩],
       some "arn:aws:iam::1:role/task"⟩
    authorizationData := [⟨tokenUserPass, "https://registry.example"⟩]
    assumeRoleResult := Except.error "AccessDenied"
    pullError := none
    action := "sh"
    mounts := ["/host/a:/container/b"]
    envs := ["FOO=bar"]
    childStartError := none
    childExitStatus := 0 }

/-- A run whose task definition has zero container definitions. -/
def inputNoContainers : PipelineInput :=
  { taskDefinition := ⟨"arn:aws:ecs:us-east-1:1:task-definition/empty:1", [], none⟩
    authorizationData := [⟨tokenUserPass, "https://registry.example"⟩]
    assumeRoleResult := Except.error "unused"
    pullError := none
    action := "sh"
    mounts := []
    envs := []
    childStartError := none
    childExitStatus := 0 }

/-- A run whose registry-token response has zero authorization-data
entries. -/
def inputNoAuthData : PipelineInput :=
  { taskDefinition := sampleTask
    authorizationData := []
    assumeRoleResult := Except.error "unused"
    pullError := none
    action := "sh"
    mounts := []
    envs := []
    childStartError := none
    childExitStatus := 0 }

/-! ## Helper lemmas -/

theorem splitCharList_ne_nil (sep : Char) (l : List Char) :
    splitCharList sep l ≠ [] := by
  induction l with
  | nil => simp [splitCharList]
  | cons c rest ih =>
    simp only [splitCharList]
    by_cases h : c = sep
    · simp [h]
    · simp only [if_neg h]
      cases hr : splitCharList sep rest with
      | nil => simp
      | cons g gs => simp

theorem goSplit_length_pos (s : String) (sep : Char) :
    0 < (goSplit s sep).length := by
  unfold goSplit
  rw [List.length_map]
  exact List.length_pos.mpr (splitCharList_ne_nil sep s.data)

theorem goSplitN2_length (s : String) (sep : Char) :
    (goSplitN2 s sep).length = 1 ∨ (goSplitN2 s sep).length = 2 := by
  unfold goSplitN2
  rcases splitCharList sep s.data with _ | ⟨x, _ | ⟨y, rest⟩⟩ <;> simp

theorem foldl_envPairs_eq (environment : List EnvPair) (acc : List String) :
    environment.foldl (fun a e => a ++ ["-e", e.name ++ "=" ++ e.value]) acc
      = acc ++ ceFlags environment := by
  induction environment generalizing acc with
  | nil => simp [ceFlags]
  | cons e rest ih => simp [ceFlags, ih, List.append_assoc]

theorem mountFold_wf (mounts : List String)
    (h : ∀ m ∈ mounts, (goSplitN2 m ':').length = 2) (acc : List String) :
    mountFold mounts acc = some (acc ++ mountFlagList mounts) := by
  induction mounts generalizing acc with
  | nil => simp [mountFold, mountFlagList]
  | cons m rest ih =>
    obtain ⟨a, b, hab⟩ := List.length_eq_two.mp (h m (by simp))
    simp only [mountFold, hab, List.getElem?_cons_zero, List.getElem?_cons_succ]
    rw [ih (fun x hx => h x (by simp [hx]))]
    simp [mountFlagList, mountFlag, hab, List.append_assoc]

theorem mountFold_malformed (mounts : List String) (m : String) (hm : m ∈ mounts)
    (h : (goSplitN2 m ':').length ≠ 2) (acc : List String) :
    mountFold mounts acc = none := by
  induction mounts generalizing acc with
  | nil => cases hm
  | cons m0 rest ih =>
    rcases List.mem_cons.mp hm with heq | hmem
    · subst heq
      obtain ⟨x, hx⟩ := List.length_eq_one.mp ((goSplitN2_length m ':').resolve_right h)
      simp [mountFold, hx]
    · rcases h0 : goSplitN2 m0 ':' with _ | ⟨p0, _ | ⟨p1, ps⟩⟩
      · simp [mountFold, h0]
      · simp [mountFold, h0]
      · simp only [mountFold, h0, List.getElem?_cons_zero, List.getElem?_cons_succ]
        exact ih hmem _

theorem envFold_wf (envs : List String)
    (h : ∀ e ∈ envs, (goSplitN2 e '=').length = 2) (acc : List String) :
    envFold envs acc = some (acc ++ envFlagList envs) := by
  induction envs generalizing acc with
  | nil => simp [envFold, envFlagList]
  | cons e rest ih =>
    obtain ⟨a, b, hab⟩ := List.length_eq_two.mp (h e (by simp))
    simp only [envFold, hab, List.getElem?_cons_zero, List.getElem?_cons_succ]
    rw [ih (fun x hx => h x (by simp [hx]))]
    simp [envFlagList, envFlag, hab, List.append_assoc]

theorem buildInvocation_wf (cd : ContainerDefinition) (roleArgs : List String)
    (mounts envs command : List String)
    (hm : ∀ m ∈ mounts, (goSplitN2 m ':').length = 2)
    (he : ∀ e ∈ envs, (goSplitN2 e '=').length = 2) :
    buildInvocation cd roleArgs mounts envs command =
      some (["run", "-it", "--rm"] ++ ceFlags cd.environment ++ roleArgs ++
        mountFlagList mounts ++ envFlagList envs ++ [cd.image] ++ command) := by
  unfold buildInvocation
  simp [foldl_envPairs_eq, mountFold_wf _ hm, envFold_wf _ he, List.append_assoc]

theorem runPipeline_launched (input : PipelineInput) (cd0 : ContainerDefinition)
    (ad0 : AuthorizationData) (u pw : String)
    (hcd : input.taskDefinition.containerDefinitions[0]? = some cd0)
    (had : input.authorizationData[0]? = some ad0)
    (htok : parseRegistryToken ad0.authorizationToken = .authOk u pw)
    (hpull : input.pullError = none)
    (hm : ∀ m ∈ input.mounts, (goSplitN2 m ':').length = 2)
    (he : ∀ e ∈ input.envs, (goSplitN2 e '=').length = 2) :
    runPipeline input = .launched
      (["run", "-it", "--rm"] ++ ceFlags cd0.environment ++
        (assumeRoleStep input.taskDefinition.taskRoleArn input.assumeRoleResult).fst ++
        mountFlagList input.mounts ++ envFlagList input.envs ++ [cd0.image] ++
        selectCommand input.action cd0.command) exitCodeOk := by
  unfold runPipeline
  simp only [hcd, had, htok, hpull, buildInvocation_wf _ _ _ _ _ hm he]

/-! ## Claims -/

/-- C1: the claim says that with no user-supplied command the container
definition's default command is used.  In the code the fallback branch is
dead: `strings.Split(action, " ")` always returns at least one (possibly
empty) token, so the `len(command) == 0` guard never fires, and the final
command is always the split of the `action` string — with no `-a` flag
that is the split of viper's built-in default `"bundle exec rails c"`, and
with an explicitly empty action it is `[""]`, never the container
definition's default `["bin/app"]`. -/
theorem commandFallbackIsDead :
    (∀ action containerCommand,
      selectCommand action containerCommand = goSplit action ' ') ∧
    selectCommand "" ["bin/app"] = [""] ∧
    selectCommand (viperGetString none none viperActionDefault) ["bin/app"]
      = ["bundle", "exec", "rails", "c"] := by
  refine ⟨fun action containerCommand => ?_, by decide, by decide⟩
  unfold selectCommand
  rw [if_neg (Nat.pos_iff_ne_zero.mp (goSplit_length_pos action ' '))]

/-- C2: the claim says the tool propagates the child's exit status and
surfaces a launch failure as a fatal error.  In the code the results of
`dockerCmd.Start()` and `dockerCmd.Wait()` (main.go lines 343-344) are
both discarded: the pipeline's result is independent of the child's start
error and exit status, and a run whose docker binary cannot be found
still finishes with exit status `exitCodeOk = 0`, not the child's 127. -/
theorem childOutcomeIsDiscarded :
    (∀ (input : PipelineInput) (err : Option String) (st : Int),
      runPipeline { input with childStartError := err, childExitStatus := st }
        = runPipeline input) ∧
    inputChildFailure.childStartError.isSome = true ∧
    runPipeline inputChildFailure
      = .launched ["run", "-it", "--rm", "-e", "A=1", "repo/app:1", "sh"] exitCodeOk ∧
    exitCodeOk ≠ inputChildFailure.childExitStatus := by
  refine ⟨fun input err st => rfl, by decide, by decide, by decide⟩

/-- C5 counterexample: the claim says a decoded token whose password
portion contains a colon still yields the pair
`(username, everything after the first colon)` and does not fail.  The
code splits on every colon and demands exactly two parts, so the token
decoding to `"user:pa:ss"` does not yield `("user", "pa:ss")`; instead
the failure branch dereferences the nil decode error (`err.Error()` at
main.go line 252), a runtime panic. -/
theorem colonPasswordDoesFail :
    base64DecodeString tokenColonPassword = some "user:pa:ss" ∧
    parseRegistryToken tokenColonPassword = .splitCrashed ∧
    parseRegistryToken tokenColonPassword ≠ .authOk "user" "pa:ss" := by
  refine ⟨by decide, by decide, by decide⟩

/-- C5 amended: the registry token is base64-decoded and split on every
colon; a decode failure exits fatally with `exitCodeDockerError` (after
printing the decode error), a split that does not yield exactly two parts
— including a password containing a colon — aborts the run via a
nil-error dereference panic rather than a readable message, and only a
decoded token with exactly one colon yields the username/password pair. -/
theorem registryTokenParsing (input : PipelineInput) (ad0 : AuthorizationData)
    (hcd : (input.taskDefinition.containerDefinitions[0]?).isSome = true)
    (had : input.authorizationData[0]? = some ad0) :
    (base64DecodeString ad0.authorizationToken = none →
      runPipeline input = .exitedEarly exitCodeDockerError) ∧
    (∀ data, base64DecodeString ad0.authorizationToken = some data →
      ((goSplit data ':').length ≠ 2 → runPipeline input = .crashed) ∧
      (∀ u pw, goSplit data ':' = [u, pw] →
        parseRegistryToken ad0.authorizationToken = .authOk u pw)) := by
  obtain ⟨cd0, hcd0⟩ := Option.isSome_iff_exists.mp hcd
  constructor
  · intro hdec
    unfold runPipeline
    simp only [hcd0, had]
    unfold parseRegistryToken
    simp [hdec]
  · intro data hdata
    constructor
    · intro hlen
      unfold runPipeline
      simp only [hcd0, had]
      unfold parseRegistryToken
      simp [hdata, hlen]
    · intro u pw hsplit
      unfold parseRegistryToken
      simp only [hdata]
      have hl : (goSplit data ':').length = 2 := by rw [hsplit]; rfl
      rw [dif_pos hl]
      have h0 : (goSplit data ':').get ⟨0, by omega⟩ = u := by
        simp [hsplit]
      have h1 : (goSplit data ':').get ⟨1, by omega⟩ = pw := by
        simp [hsplit]
      rw [h0, h1]

/-- C5 amended witness. -/
theorem registryTokenParsingWitness :
    parseRegistryToken tokenUserPass = .authOk "user" "pass" :=
  ((registryTokenParsing inputChildFailure
      ⟨tokenUserPass, "https://registry.example"⟩ (by decide) (by decide)).2
    "user:pass" (by decide)).2 "user" "pass" (by decide)

/-- C6 counterexample: the claim says an explicit flag value takes
priority over the environment variable.  In the code the environment
variable overwrites the flag value unconditionally (main.go lines
183-193): with flag `us-west-2` and `AWS_REGION=eu-west-1` the run uses
`eu-west-1`, and likewise for the profile. -/
theorem envVariableBeatsFlag :
    selectRegion (some "us-west-2") none (some "eu-west-1") = "eu-west-1" ∧
    selectRegion (some "us-west-2") none (some "eu-west-1") ≠ "us-west-2" ∧
    selectProfile (some "prod") none (some "dev") = "dev" ∧
    selectProfile (some "prod") none (some "dev") ≠ "prod" := by
  refine ⟨by decide, by decide, by decide, by decide⟩

/-- C6 amended: the AWS region and profile are each selected once per run,
with the environment variable taking priority over the explicit flag,
which takes priority over the config file, which takes priority over the
built-in default (`us-east-1` / `default`). -/
theorem regionProfilePriority (flagV cfgV : Option String) (e f c : String) :
    selectRegion flagV cfgV (some e) = e ∧
    selectRegion (some f) cfgV none = f ∧
    selectRegion none (some c) none = c ∧
    selectRegion none none none = "us-east-1" ∧
    selectProfile flagV cfgV (some e) = e ∧
    selectProfile (some f) cfgV none = f ∧
    selectProfile none (some c) none = c ∧
    selectProfile none none none = "default" := by
  refine ⟨rfl, rfl, rfl, rfl, rfl, rfl, rfl, rfl⟩

/-- C7 counterexample: the claim says a mount spec lacking a colon is
rejected as a caller error, not a crash without a rejection.  In the code
`strings.SplitN(mount, ":", 2)` on `"nocolon"` yields one part and
`parts[1]` is an out-of-range access: the run aborts with a runtime
panic, modelled as `RunResult.crashed` (distinct from every
`exitedEarly` rejection), never as a clean caller-error rejection. -/
theorem mountWithoutColonCrashes :
    runPipeline inputBadMount = .crashed ∧
    mountFold ["nocolon"] ["run", "-it", "--rm"] = none ∧
    (∀ code, runPipeline inputBadMount ≠ .exitedEarly code) := by
  have h : runPipeline inputBadMount = .crashed := by decide
  exact ⟨h, by decide, fun code => by simp [h]⟩

/-- C7 amended: a mount spec of the form `src:dest` (split on the first
colon) produces the flag pair `-v src:dest`, and a spec lacking a colon
is not silently dropped and never reaches the runtime — but rather than
a clean caller-error rejection it aborts the run with an out-of-range
panic. -/
theorem mountSpecHandling (input : PipelineInput) (cd0 : ContainerDefinition)
    (ad0 : AuthorizationData) (u pw m : String)
    (hcd : input.taskDefinition.containerDefinitions[0]? = some cd0)
    (had : input.authorizationData[0]? = some ad0)
    (htok : parseRegistryToken ad0.authorizationToken = .authOk u pw)
    (hpull : input.pullError = none) :
    (∀ spec a b, goSplitN2 spec ':' = [a, b] →
      mountFlag spec = ["-v", a ++ ":" ++ b]) ∧
    (∀ mounts acc, (∀ x ∈ mounts, (goSplitN2 x ':').length = 2) →
      mountFold mounts acc = some (acc ++ mountFlagList mounts)) ∧
    (m ∈ input.mounts → (goSplitN2 m ':').length ≠ 2 →
      runPipeline input = .crashed) := by
  refine ⟨fun spec a b hab => by simp [mountFlag, hab],
    fun mounts acc hwf => mountFold_wf mounts hwf acc,
    fun hmem hbad => ?_⟩
  unfold runPipeline
  simp only [hcd, had, htok, hpull]
  have hbuild : buildInvocation cd0
      (assumeRoleStep input.taskDefinition.taskRoleArn input.assumeRoleResult).fst
      input.mounts input.envs (selectCommand input.action cd0.command) = none := by
    unfold buildInvocation
    simp [mountFold_malformed input.mounts m hmem hbad]
  simp [hbuild]

/-- C7 amended witness. -/
theorem mountSpecHandlingWitness :
    runPipeline inputBadMount = .crashed :=
  (mountSpecHandling inputBadMount
      ⟨"repo/app:1", ["bin/app"], [⟨"A", "1"⟩]⟩
      ⟨tokenUserPass, "https://registry.example"⟩
      "user" "pass" "nocolon" (by decide) (by decide) (by decide)
      (by decide)).2.2 (by decide) (by decide)

/-- C8: every user environment override is split on the first `=` only:
a spec splitting as `[name, value]` produces the flag pair
`-e name=value`, `"FOO=bar"` produces `-e FOO=bar`, and `"FOO=bar=baz"`
splits into name `FOO` and value `bar=baz` — the later `=` stays in the
value. -/
theorem envOverrideSplitsOnFirstEquals :
    (∀ env a b, goSplitN2 env '=' = [a, b] →
      envFlag env = ["-e", a ++ "=" ++ b]) ∧
    goSplitN2 "FOO=bar" '=' = ["FOO", "bar"] ∧
    goSplitN2 "FOO=bar=baz" '=' = ["FOO", "bar=baz"] ∧
    envFold ["FOO=bar"] [] = some ["-e", "FOO=bar"] ∧
    envFold ["FOO=bar=baz"] [] = some ["-e", "FOO=bar=baz"] := by
  refine ⟨fun env a b hab => by simp [envFlag, hab],
    by decide, by decide, by decide, by decide⟩

/-- C8 witness. -/
theorem envOverrideSplitsOnFirstEqualsWitness :
    envFlag "X=y=z" = ["-e", "X=y=z"] :=
  (envOverrideSplitsOnFirstEquals.1 "X=y=z" "X" "y=z" (by decide)).trans
    (by decide)

/-- C9: for every cache key, a cached record with
`expiry > now + safety margin` is returned directly with zero invocations
of the underlying provider chain and the cache untouched; a missing,
corrupt, or expired record is a cache miss that delegates to the chain
exactly once and overwrites the cache with the chain's result. -/
theorem credentialCacheResolve (record chainResult : CachedRecord) (now : Nat) :
    (now + safetyMargin < record.expiry →
      resolveCredentials (.found record) now chainResult = (record, 0, none)) ∧
    (¬ now + safetyMargin < record.expiry →
      resolveCredentials (.found record) now chainResult
        = (chainResult, 1, some chainResult)) ∧
    resolveCredentials .missing now chainResult
      = (chainResult, 1, some chainResult) ∧
    resolveCredentials .corrupt now chainResult
      = (chainResult, 1, some chainResult) := by
  refine ⟨fun h => by simp [resolveCredentials, h],
    fun h => by simp [resolveCredentials, h], rfl, rfl⟩

/-- C9 witness. -/
theorem credentialCacheResolveWitness :
    resolveCredentials (.found ⟨"AK", "SK", "ST", 10000, "cached"⟩) 100
        ⟨"AK2", "SK2", "ST2", 20000, "chain"⟩
      = (⟨"AK", "SK", "ST", 10000, "cached"⟩, 0, none) ∧
    resolveCredentials (.found ⟨"AK", "SK", "ST", 10000, "cached"⟩) 9900
        ⟨"AK2", "SK2", "ST2", 20000, "chain"⟩
      = (⟨"AK2", "SK2", "ST2", 20000, "chain"⟩, 1,
         some ⟨"AK2", "SK2", "ST2", 20000, "chain"⟩) :=
  ⟨(credentialCacheResolve ⟨"AK", "SK", "ST", 10000, "cached"⟩
      ⟨"AK2", "SK2", "ST2", 20000, "chain"⟩ 100).1 (by decide),
   (credentialCacheResolve ⟨"AK", "SK", "ST", 10000, "cached"⟩
      ⟨"AK2", "SK2", "ST2", 20000, "chain"⟩ 9900).2.1 (by decide)⟩

/-- C10: the pipeline indexes the first container definition
(main.go line 229) and the first authorization-data entry (line 241)
without an emptiness guard: a task definition with zero container
definitions, or an empty authorization-data list, aborts the run with an
out-of-range panic (`RunResult.crashed`), never with a clean fatal
`exitedEarly`. -/
theorem emptyListsHitUncheckedIndex (input : PipelineInput) :
    (input.taskDefinition.containerDefinitions = [] →
      runPipeline input = .crashed ∧
      ∀ code, runPipeline input ≠ .exitedEarly code) ∧
    (input.taskDefinition.containerDefinitions ≠ [] →
      input.authorizationData = [] → runPipeline input = .crashed) := by
  constructor
  · intro h
    have : runPipeline input = .crashed := by
      unfold runPipeline
      simp [h]
    exact ⟨this, fun code => by simp [this]⟩
  · intro hne h
    unfold runPipeline
    rcases hcd : input.taskDefinition.containerDefinitions with _ | ⟨cd0, cds⟩
    · exact absurd hcd hne
    · simp [h]

/-- C10 witness. -/
theorem emptyListsHitUncheckedIndexWitness :
    runPipeline inputNoContainers = .crashed ∧
    runPipeline inputNoAuthData = .crashed :=
  ⟨((emptyListsHitUncheckedIndex inputNoContainers).1 (by decide)).1,
   (emptyListsHitUncheckedIndex inputNoAuthData).2 (by decide) (by decide)⟩

/-- C4: the invocation argument list is built in the deterministic order:
base flags `run -it --rm`, the container definition's environment
injections in their original order, then (exactly when scoped credentials
are present) the access-key, secret-key, and session-token injections,
then the user mount flags, then the user environment overrides, then the
image reference, then the command tokens. -/
theorem invocationArgumentOrder (cd : ContainerDefinition)
    (credsOpt : Option Credentials) (arn errMsg : String)
    (mounts envs command : List String)
    (hm : ∀ m ∈ mounts, (goSplitN2 m ':').length = 2)
    (he : ∀ e ∈ envs, (goSplitN2 e '=').length = 2) :
    buildInvocation cd (credFlags credsOpt) mounts envs command =
      some (["run", "-it", "--rm"] ++ ceFlags cd.environment ++
        credFlags credsOpt ++ mountFlagList mounts ++ envFlagList envs ++
        [cd.image] ++ command) ∧
    (∀ c, (assumeRoleStep (some arn) (.ok c)).fst = credFlags (some c)) ∧
    (assumeRoleStep (some arn) (.error errMsg)).fst = credFlags none ∧
    (∀ r, (assumeRoleStep none r).fst = credFlags none) :=
  ⟨buildInvocation_wf cd _ mounts envs command hm he,
   fun _ => rfl, rfl, fun _ => rfl⟩

/-- C4 witness. -/
theorem invocationArgumentOrderWitness :
    buildInvocation ⟨"repo/app:1", ["bin/app"], [⟨"A", "1"⟩]⟩ (credFlags none)
        ["/host/a:/container/b"] ["FOO=bar"] ["sh"]
      = some ["run", "-it", "--rm", "-e", "A=1", "-v", "/host/a:/container/b",
          "-e", "FOO=bar", "repo/app:1", "sh"] :=
  (invocationArgumentOrder ⟨"repo/app:1", ["bin/app"], [⟨"A", "1"⟩]⟩ none
      "arn" "msg" ["/host/a:/container/b"] ["FOO=bar"] ["sh"]
      (by decide) (by decide)).1.trans (by decide)

/-- C3: when the assume-role call for the task's role fails, the error is
logged at debug (diagnostic) verbosity only, the pipeline still reaches
the process-runner stage, and — as long as no other input source (the
container definition's environment, the user overrides, the mounts, the
image, or the command) itself carries a string starting with one of the
credential variable names — the final argument list contains no
`AWS_ACCESS_KEY_ID` / `AWS_SECRET_ACCESS_KEY` / `AWS_SESSION_TOKEN`
environment injection. -/
theorem roleAssumptionFailureIsNonFatal (input : PipelineInput)
    (cd0 : ContainerDefinition) (ad0 : AuthorizationData)
    (arn errMsg u pw : String)
    (hrole : input.taskDefinition.taskRoleArn = some arn)
    (hfail : input.assumeRoleResult = .error errMsg)
    (hcd : input.taskDefinition.containerDefinitions[0]? = some cd0)
    (had : input.authorizationData[0]? = some ad0)
    (htok : parseRegistryToken ad0.authorizationToken = .authOk u pw)
    (hpull : input.pullError = none)
    (hm : ∀ m ∈ input.mounts, (goSplitN2 m ':').length = 2)
    (he : ∀ e ∈ input.envs, (goSplitN2 e '=').length = 2)
    (henv1 : ∀ p ∈ cd0.environment,
      mentionsCredentialEnv (p.name ++ "=" ++ p.value) = false)
    (henv2 : ∀ env ∈ input.envs, ∀ a b, goSplitN2 env '=' = [a, b] →
      mentionsCredentialEnv (a ++ "=" ++ b) = false)
    (hmnt : ∀ m ∈ input.mounts, ∀ a b, goSplitN2 m ':' = [a, b] →
      mentionsCredentialEnv (a ++ ":" ++ b) = false)
    (himg : mentionsCredentialEnv cd0.image = false)
    (hcmd : ∀ t ∈ selectCommand input.action cd0.command,
      mentionsCredentialEnv t = false) :
    (∀ entry ∈ (assumeRoleStep input.taskDefinition.taskRoleArn
        input.assumeRoleResult).snd, entry.level = LogLevel.debug) ∧
    ∃ argv, runPipeline input = .launched argv exitCodeOk ∧
      ∀ s ∈ argv, mentionsCredentialEnv s = false := by
  have hroleArgs : (assumeRoleStep input.taskDefinition.taskRoleArn
      input.assumeRoleResult).fst = [] := by
    rw [hrole, hfail]; rfl
  constructor
  · rw [hrole, hfail]
    intro entry hentry
    rcases List.mem_cons.mp hentry with rfl | hentry
    · rfl
    · rcases List.mem_cons.mp hentry with rfl | hentry
      · rfl
      · cases hentry
  · have hl := runPipeline_launched input cd0 ad0 u pw hcd had htok hpull hm he
    rw [hroleArgs] at hl
    refine ⟨_, hl, ?_⟩
    intro s hs
    rcases List.mem_append.mp hs with hs | hlast
    · rcases List.mem_append.mp hs with hs | himgm
      · rcases List.mem_append.mp hs with hs | henvm
        · rcases List.mem_append.mp hs with hs | hmntm
          · rcases List.mem_append.mp hs with hs | hrolem
            · rcases List.mem_append.mp hs with hs | hcem
              · rcases List.mem_cons.mp hs with rfl | hs
                · decide
                · rcases List.mem_cons.mp hs with rfl | hs
                  · decide
                  · rcases List.mem_cons.mp hs with rfl | hs
                    · decide
                    · cases hs
              · rw [ceFlags] at hcem
                obtain ⟨l, hl1, hl2⟩ := List.mem_flatten.mp hcem
                obtain ⟨p, hp, rfl⟩ := List.mem_map.mp hl1
                rcases List.mem_cons.mp hl2 with rfl | hl2
                · decide
                · rcases List.mem_cons.mp hl2 with rfl | hl2
                  · exact henv1 p hp
                  · cases hl2
            · cases hrolem
          · rw [mountFlagList] at hmntm
            obtain ⟨l, hl1, hl2⟩ := List.mem_flatten.mp hmntm
            obtain ⟨mnt, hmm, rfl⟩ := List.mem_map.mp hl1
            obtain ⟨a, b, hab⟩ := List.length_eq_two.mp (hm mnt hmm)
            rw [show mountFlag mnt = ["-v", a ++ ":" ++ b] by
              simp [mountFlag, hab]] at hl2
            rcases List.mem_cons.mp hl2 with rfl | hl2
            · decide
            · rcases List.mem_cons.mp hl2 with rfl | hl2
              · exact hmnt mnt hmm a b hab
              · cases hl2
        · rw [envFlagList] at henvm
          obtain ⟨l, hl1, hl2⟩ := List.mem_flatten.mp henvm
          obtain ⟨env, hem, rfl⟩ := List.mem_map.mp hl1
          obtain ⟨a, b, hab⟩ := List.length_eq_two.mp (he env hem)
          rw [show envFlag env = ["-e", a ++ "=" ++ b] by
            simp [envFlag, hab]] at hl2
          rcases List.mem_cons.mp hl2 with rfl | hl2
          · decide
          · rcases List.mem_cons.mp hl2 with rfl | hl2
            · exact henv2 env hem a b hab
            · cases hl2
      · rcases List.mem_cons.mp himgm with rfl | h
        · exact himg
        · cases h
    · exact hcmd s hlast

/-- C3 witness. -/
theorem roleAssumptionFailureIsNonFatalWitness :
    (∀ entry ∈ (assumeRoleStep inputRoleDenied.taskDefinition.taskRoleArn
        inputRoleDenied.assumeRoleResult).snd, entry.level = LogLevel.debug) ∧
    ∃ argv, runPipeline inputRoleDenied = .launched argv exitCodeOk ∧
      ∀ s ∈ argv, mentionsCredentialEnv s = false := by
  refine roleAssumptionFailureIsNonFatal inputRoleDenied
    ⟨"repo/app:1", ["bin/app"], [⟨"A", "1"⟩]⟩
    ⟨tokenUserPass, "https://registry.example"⟩
    "arn:aws:iam::1:role/task" "AccessDenied" "user" "pass"
    (by decide) rfl (by decide) (by decide) (by decide) (by decide)
    (by decide) (by decide) (by decide) ?_ ?_ (by decide) (by decide)
  · intro env hem a b hab
    rcases List.mem_cons.mp hem with rfl | h
    · have heq : ["FOO", "bar"] = [a, b] :=
        (by decide : goSplitN2 "FOO=bar" '=' = ["FOO", "bar"]).symm.trans hab
      obtain ⟨rfl, rfl⟩ : "FOO" = a ∧ "bar" = b := by simpa using heq
      decide
    · cases h
  · intro m hmm a b hab
    rcases List.mem_cons.mp hmm with rfl | h
    · have heq : ["/host/a", "/container/b"] = [a, b] :=
        (by decide : goSplitN2 "/host/a:/container/b" ':'
          = ["/host/a", "/container/b"]).symm.trans hab
      obtain ⟨rfl, rfl⟩ : "/host/a" = a ∧ "/container/b" = b := by simpa using heq
      decide
    · cases h

end EcsLocal
